import Mathlib

/-!
Verification of the SmartScan AI backend core (src/main.py, src/schemas.py).

Shallow embedding conventions:
* Python `float` nutrient values are modelled as `Rat` (all thresholds in the
  code are integer-valued, so no floating-point rounding is at stake).
* Absent/`None` values are modelled as `Option`.
* Network calls (`requests.get(...).json()`) are modelled by passing the
  outcome of the external call as an explicit `Except String payload`
  argument: `.error msg` stands for any non-HTTP exception raised while
  performing or decoding the call, `.ok data` for a successfully decoded
  JSON payload.
* The document store is modelled as an explicit list of records threaded
  through the handlers; `create_document` appends and returns a fresh id,
  which we model by passing the generated id as an argument.
-/

namespace SmartScan

/-- Model of `GoalType = Literal["balanced", "weight_loss", "muscle_gain",
"heart_health", "low_sugar"]` from src/schemas.py. -/
inductive GoalType where
  | balanced
  | weight_loss
  | muscle_gain
  | heart_health
  | low_sugar
deriving DecidableEq, Repr

/-- Insulin-risk literal `Literal["low", "medium", "high"]`. -/
inductive Risk where
  | low
  | medium
  | high
deriving DecidableEq, Repr

/-- Verdict colour literal `Literal["green", "yellow", "red"]`. -/
inductive Color where
  | green
  | yellow
  | red
deriving DecidableEq, Repr

/-- Model of `Nutrients` from src/schemas.py: every field optional. -/
structure Nutrients where
  calories : Option Rat := none
  protein : Option Rat := none
  carbs : Option Rat := none
  sugar : Option Rat := none
  fat : Option Rat := none
  sat_fat : Option Rat := none
  fiber : Option Rat := none
  sodium : Option Rat := none
deriving DecidableEq, Repr

/-- Model of `ScanItem` from src/schemas.py: every field optional. -/
structure ScanItem where
  name : Option String := none
  brand : Option String := none
  barcode : Option String := none
  image_url : Option String := none
  ingredients_text : Option String := none
  nutrients : Option Nutrients := none
  processing_level : Option String := none
deriving DecidableEq, Repr

/-- Model of `Verdict` from src/schemas.py. -/
structure Verdict where
  color : Color
  score : Int
  explanation : String
  insulin_risk : Risk
deriving DecidableEq, Repr

/-- Model of `Alternative` from src/schemas.py. -/
structure Alternative where
  name : String
  brand : Option String := none
  image_url : Option String := none
  barcode : Option String := none
deriving DecidableEq, Repr

/-- Model of `UserProfile` from src/schemas.py, with its field defaults. -/
structure UserProfile where
  user_id : String
  name : Option String := none
  goal : GoalType := .balanced
  allergies : List String := []
  sensitivities : List String := []
  language : String := "en"
deriving DecidableEq, Repr

/-- Model of `ScanRecord` from src/schemas.py. -/
structure ScanRecord where
  user_id : String
  goal : GoalType
  item : ScanItem
  verdict : Verdict
  allergens_found : List String := []
  alternatives : List Alternative := []
deriving DecidableEq, Repr

/-! ### compute_verdict (src/main.py lines 33-73)

The function is embedded as the sequential composition of its three
nutrient steps followed by the clamp and the colour derivation; each step
is a direct transcription of the corresponding `if` block. -/

/-- Lines 38-46: the sugar block.  Starting from the initial
`score = 70, insulin_risk = "medium"` it returns the score and risk after
the sugar adjustment. -/
def sugar_step (goal : GoalType) (item : ScanItem) : Int × Risk :=
  match item.nutrients with
  | none => (70, Risk.medium)
  | some n =>
    match n.sugar with
    | none => (70, Risk.medium)
    | some sugar =>
      if goal = .low_sugar ∨ goal = .heart_health then
        if sugar ≤ 5 then (70 + 20, Risk.low)
        else if sugar ≤ 10 then (70 + 0, Risk.medium)
        else (70 - 25, Risk.high)
      else (70, Risk.medium)

/-- Lines 47-54: the protein block, applied to the running score. -/
def protein_step (goal : GoalType) (item : ScanItem) (score : Int) : Int :=
  match item.nutrients with
  | none => score
  | some n =>
    match n.protein with
    | none => score
    | some protein =>
      if goal = .muscle_gain then
        if protein ≥ 20 then score + 15
        else if protein ≥ 10 then score + 5
        else score - 10
      else score

/-- Lines 55-60: the calories block, applied to the running score. -/
def calories_step (goal : GoalType) (item : ScanItem) (score : Int) : Int :=
  match item.nutrients with
  | none => score
  | some n =>
    match n.calories with
    | none => score
    | some c =>
      if goal = .weight_loss then
        if c ≤ 150 then score + 10
        else if c > 350 then score - 15
        else score
      else score

/-- The score accumulated by lines 35-60, before the clamp of line 62. -/
def pre_clamp_score (goal : GoalType) (item : ScanItem) : Int :=
  calories_step goal item (protein_step goal item (sugar_step goal item).1)

/-- Line 63 of src/main.py: `"green" if score >= 75 else ("yellow" if score
>= 55 else "red")`. -/
def color_of_score (score : Int) : Color :=
  if score ≥ 75 then Color.green
  else if score ≥ 55 then Color.yellow
  else Color.red

/-- Lines 66-71 of src/main.py: the fixed explanation string per colour. -/
def explanation_of_color : Color → String
  | Color.green => "Balanced nutrients; aligns well with your selected goal."
  | Color.yellow => "Mixed profile; moderation advised based on your goal."
  | Color.red => "High risk factors for your goal; consider safer option."

/-- Embedding of `compute_verdict(goal, item)` from src/main.py lines 33-73. -/
def compute_verdict (goal : GoalType) (item : ScanItem) : Verdict :=
  let insulin_risk := (sugar_step goal item).2
  let score := max 0 (min 100 (pre_clamp_score goal item))
  let color := color_of_score score
  { color := color, score := score,
    explanation := explanation_of_color color, insulin_risk := insulin_risk }

/-! ### detect_allergens (src/main.py lines 76-84) -/

/-- Whether the first char list starts the second (auxiliary for Python's
substring membership operator). -/
def leadsWith : List Char → List Char → Bool
  | [], _ => true
  | _ :: _, [] => false
  | a :: as, b :: bs => a = b && leadsWith as bs

/-- Python's `sub in txt` substring membership, on char lists. -/
def hasSub (sub : List Char) : List Char → Bool
  | [] => leadsWith sub []
  | c :: rest => leadsWith sub (c :: rest) || hasSub sub rest

/-- Python `str.lower()`; the repository only ever lowercases ASCII text. -/
def lowerStr (s : String) : String :=
  String.mk (s.data.map Char.toLower)

/-- Embedding of `detect_allergens(ingredients_text, user_allergies)` from src/main.py
lines 76-84.  `if not ingredients_text` is falsy for both `None` and the
empty string; the loop appends matches in the order of `user_allergies`,
which is exactly `List.filter`. -/
def detect_allergens (ingredients_text : Option String)
    (user_allergies : List String) : List String :=
  match ingredients_text with
  | none => []
  | some t =>
    if t = "" then []
    else
      let txt := lowerStr t
      user_allergies.filter (fun a => hasSub (lowerStr a).data txt.data)

/-! ### find_alternatives (src/main.py lines 87-103) -/

/-- A product object of the external search payload (the keys read by
lines 94-99); each key individually absent-or-present. -/
structure SearchProduct where
  product_name : Option String := none
  brands : Option String := none
  image_front_small_url : Option String := none
  image_url : Option String := none
  code : Option String := none
deriving DecidableEq, Repr

/-- The decoded external search payload; `data.get("products", [])`
defaults to the empty list. -/
structure SearchData where
  products : List SearchProduct := []
deriving DecidableEq, Repr

/-- Python `a or b` on two optional strings: `None` and `""` are falsy. -/
def py_or_str (a b : Option String) : Option String :=
  match a with
  | none => b
  | some s => if s = "" then b else some s

/-- Python `a or d` coercing an optional string to a string default. -/
def py_or_default (a : Option String) (d : String) : String :=
  match a with
  | none => d
  | some s => if s = "" then d else s

/-- Lines 95-100: one search result mapped into an `Alternative`. -/
def map_search_product (p : SearchProduct) : Alternative :=
  { name := py_or_default p.product_name ("Alternative"),
    brand := p.brands,
    image_url := py_or_str p.image_front_small_url p.image_url,
    barcode := p.code }

/-- Line 91: the search query string built from the item. -/
def alt_query (item : ScanItem) : String :=
  py_or_default (py_or_str item.brand item.name) ("healthy")

/-- Embedding of `find_alternatives(item, goal)` from src/main.py lines 87-103.  The
outbound search call of lines 92-93 is abstracted by `search_outcome`:
`.error msg` is any exception raised while fetching or decoding (caught by
the blanket `except` of line 101, before any result is appended), `.ok
data` the decoded payload.  `goal` is unused by the source body too. -/
def find_alternatives (item : ScanItem) (goal : GoalType)
    (search_outcome : Except String SearchData) : List Alternative :=
  match search_outcome with
  | .error _ => []
  | .ok data => (data.products.take 5).map map_search_product

/-! ### barcode_lookup (src/main.py lines 134-164) -/

/-- The per-100g nutrient keys read from `data["product"]["nutriments"]`
by lines 149-156. -/
structure OFFNutriments where
  energy_kcal_100g : Option Rat := none
  proteins_100g : Option Rat := none
  carbohydrates_100g : Option Rat := none
  sugars_100g : Option Rat := none
  fat_100g : Option Rat := none
  saturated_fat_100g : Option Rat := none
  fiber_100g : Option Rat := none
  sodium_100g : Option Rat := none
deriving DecidableEq, Repr

/-- The product-object keys read by lines 142-158. -/
structure OFFProduct where
  product_name : Option String := none
  brands : Option String := none
  code : Option String := none
  image_front_small_url : Option String := none
  image_url : Option String := none
  ingredients_text : Option String := none
  nutriments : Option OFFNutriments := none
  nova_group : Option String := none
deriving DecidableEq, Repr

/-- The decoded barcode-lookup payload: `data.get("status")` and
`data.get("product", {})`. -/
structure OFFData where
  status : Option Int := none
  product : Option OFFProduct := none
deriving DecidableEq, Repr

/-- Python exceptions relevant to the handler: `HTTPException(status,
detail)` and everything else. -/
inductive PyExc where
  | http (status : Nat) (detail : String)
  | other (detail : String)
deriving DecidableEq, Repr

/-- Lines 142-159: the successful payload mapped into a `ScanItem`.
`data.get("product", {})` and `p.get("nutriments", {})` default missing
objects to empty ones, so the nutrients record is always present with each
field individually optional. -/
def map_barcode_product (p : OFFProduct) : ScanItem :=
  let nutr := p.nutriments.getD {}
  { name := p.product_name,
    brand := p.brands,
    barcode := p.code,
    image_url := py_or_str p.image_front_small_url p.image_url,
    ingredients_text := p.ingredients_text,
    nutrients := some
      { calories := nutr.energy_kcal_100g,
        protein := nutr.proteins_100g,
        carbs := nutr.carbohydrates_100g,
        sugar := nutr.sugars_100g,
        fat := nutr.fat_100g,
        sat_fat := nutr.saturated_fat_100g,
        fiber := nutr.fiber_100g,
        sodium := nutr.sodium_100g },
    processing_level := p.nova_group }

/-- The `try` body of lines 136-160.  `fetch_outcome` abstracts lines
137-138: `.error msg` is any exception raised by the request or JSON
decoding, `.ok data` the decoded payload.  Line 139's `data.get("status")
!= 1` is true when the status key is absent or differs from 1. -/
def barcode_try_body (fetch_outcome : Except String OFFData) :
    Except PyExc ScanItem :=
  match fetch_outcome with
  | .error msg => .error (.other msg)
  | .ok data =>
    if data.status ≠ some 1 then .error (.http 404 ("Product not found"))
    else .ok (map_barcode_product (data.product.getD {}))

/-- Embedding of `barcode_lookup(code)` from src/main.py lines 134-164: the `except
HTTPException: raise` clause re-raises an `HTTPException` unchanged (so a
404 stays a 404), and the blanket `except Exception` turns anything else
into a 500 carrying the exception message. -/
def barcode_lookup (fetch_outcome : Except String OFFData) :
    Except (Nat × String) ScanItem :=
  match barcode_try_body fetch_outcome with
  | .ok item => .ok item
  | .error (.http s d) => .error (s, d)
  | .error (.other msg) => .error (500, msg)

/-! ### generate_verdict (src/main.py lines 167-182) -/

/-- Model of the `VerdictRequest` body from src/main.py lines 27-30. -/
structure VerdictRequest where
  user_id : String
  goal : GoalType
  item : ScanItem
deriving DecidableEq, Repr

/-- The JSON object returned by the verdict handler (line 182). -/
structure VerdictResponse where
  scan_id : String
  verdict : Verdict
  allergens : List String
  alternatives : List Alternative
deriving DecidableEq, Repr

/-- Embedding of `generate_verdict(req)` from src/main.py lines 167-182.  The store is
the `scanrecord` collection, threaded explicitly; `create_document`
appends the record and returns the fresh id `new_id`.  Line 170 calls
`detect_allergens(req.item.ingredients_text, [])` with a literal empty
allergy list. -/
def generate_verdict (req : VerdictRequest)
    (search_outcome : Except String SearchData)
    (store : List ScanRecord) (new_id : String) :
    List ScanRecord × VerdictResponse :=
  let verdict := compute_verdict req.goal req.item
  let allergens := detect_allergens req.item.ingredients_text []
  let alternatives := find_alternatives req.item req.goal search_outcome
  let record : ScanRecord :=
    { user_id := req.user_id, goal := req.goal, item := req.item,
      verdict := verdict, allergens_found := allergens,
      alternatives := alternatives }
  (store ++ [record],
   { scan_id := new_id, verdict := verdict, allergens := allergens,
     alternatives := alternatives })

/-! ### get_or_create_profile (src/main.py lines 188-197) -/

/-- A stored `userprofile` document: the Mongo `_id` plus the profile
fields. -/
structure StoredProfile where
  doc_id : String
  profile : UserProfile
deriving DecidableEq, Repr

/-- Embedding of `get_or_create_profile(req)` from src/main.py lines 188-197.
`get_documents("userprofile", {"user_id": uid}, limit=1)` returns the
first stored document whose `user_id` matches; if one exists it is
returned as-is, otherwise `UserProfile(user_id=uid)` (all other fields at
their schema defaults) is created, persisted and returned. -/
def get_or_create_profile (store : List StoredProfile) (new_id : String)
    (uid : String) : List StoredProfile × StoredProfile :=
  match store.find? (fun d => d.profile.user_id == uid) with
  | some doc => (store, doc)
  | none =>
    let p : UserProfile := { user_id := uid }
    (store ++ [{ doc_id := new_id, profile := p }],
     { doc_id := new_id, profile := p })

/-! ### scan_image (src/main.py lines 201-210) -/

/-- The hardcoded item built on line 204 of src/main.py. -/
def stub_item : ScanItem :=
  { name := some ("Detected Meal"),
    brand := none,
    image_url := none,
    ingredients_text := some ("rice, chicken, spices"),
    nutrients := some
      { calories := some 250, protein := some 18,
        carbs := some 30, sugar := some 2 } }

/-- The JSON object returned by the image-scan handler (line 210). -/
structure ScanResponse where
  scan_id : String
  item : ScanItem
  verdict : Verdict
  allergens : List String
  alternatives : List Alternative
deriving DecidableEq, Repr

/-- Embedding of `scan_image(user_id, goal, file)` from src/main.py lines 201-210.
The uploaded `file` is modelled as its byte list; the source body never
reads it. -/
def scan_image (user_id : String) (goal : GoalType) (file : List Nat)
    (search_outcome : Except String SearchData)
    (store : List ScanRecord) (new_id : String) :
    List ScanRecord × ScanResponse :=
  let item := stub_item
  let verdict := compute_verdict goal item
  let allergens := detect_allergens item.ingredients_text []
  let alternatives := find_alternatives item goal search_outcome
  let record : ScanRecord :=
    { user_id := user_id, goal := goal, item := item, verdict := verdict,
      allergens_found := allergens, alternatives := alternatives }
  (store ++ [record],
   { scan_id := new_id, item := item, verdict := verdict,
     allergens := allergens, alternatives := alternatives })

/-! ### Spec-side reference definitions

These are written from the words of spec §4.1 and the invariant of §3
(claims C1 and C3), to be compared with the embedding of the source. -/

/-- Spec-side colour thresholds: green when score ≥ 75, yellow when
55 ≤ score < 75, red when score < 55. -/
def spec_color (score : Int) : Color :=
  if score ≥ 75 then Color.green
  else if 55 ≤ score ∧ score < 75 then Color.yellow
  else Color.red

/-- Spec-side sugar step: if sugar is present and the goal is low_sugar or
heart_health, add 20 and set risk low when sugar ≤ 5, leave score and risk
unchanged when 5 < sugar ≤ 10, and subtract 25 and set risk high
otherwise. -/
def spec_sugar_step (goal : GoalType) (sugar : Option Rat) : Int × Risk :=
  match sugar with
  | none => (70, Risk.medium)
  | some s =>
    if goal = .low_sugar ∨ goal = .heart_health then
      if s ≤ 5 then (70 + 20, Risk.low)
      else if 5 < s ∧ s ≤ 10 then (70, Risk.medium)
      else (70 - 25, Risk.high)
    else (70, Risk.medium)

/-- Spec-side protein step: if protein is present and the goal is
muscle_gain, add 15 when protein ≥ 20, add 5 when 10 ≤ protein < 20, and
subtract 10 otherwise. -/
def spec_protein_step (goal : GoalType) (protein : Option Rat)
    (score : Int) : Int :=
  match protein with
  | none => score
  | some p =>
    if goal = .muscle_gain then
      if p ≥ 20 then score + 15
      else if 10 ≤ p ∧ p < 20 then score + 5
      else score - 10
    else score

/-- Spec-side calories step: if calories are present and the goal is
weight_loss, add 10 when calories ≤ 150, subtract 15 when calories > 350,
and leave the score unchanged in between. -/
def spec_calories_step (goal : GoalType) (calories : Option Rat)
    (score : Int) : Int :=
  match calories with
  | none => score
  | some c =>
    if goal = .weight_loss then
      if c ≤ 150 then score + 10
      else if c > 350 then score - 15
      else score
    else score

/-- The reference algorithm of spec §4.1, assembled: start from score 70
and risk medium, apply the three steps, clamp to [0,100], derive the
colour from the thresholds, keep the risk set by the sugar step. -/
def spec_verdict (goal : GoalType) (item : ScanItem) : Verdict :=
  let step1 := spec_sugar_step goal (item.nutrients.bind Nutrients.sugar)
  let s2 := spec_protein_step goal (item.nutrients.bind Nutrients.protein) step1.1
  let s3 := spec_calories_step goal (item.nutrients.bind Nutrients.calories) s2
  let score := max 0 (min 100 s3)
  let color := spec_color score
  { color := color, score := score,
    explanation := explanation_of_color color, insulin_risk := step1.2 }

/-! ## Theorems -/

/-- The code's sugar block agrees with the spec-side sugar step. -/
theorem sugar_step_eq (goal : GoalType) (item : ScanItem) :
    sugar_step goal item =
      spec_sugar_step goal (item.nutrients.bind Nutrients.sugar) := by
  rcases item with ⟨nm, br, bc, iu, it, nutr, pl⟩
  cases nutr with
  | none => rfl
  | some n =>
    rcases n with ⟨c, p, cb, s, f, sf, fb, sd⟩
    cases s with
    | none => rfl
    | some sugar =>
      simp only [sugar_step, spec_sugar_step, Option.bind]
      split_ifs <;> try rfl
      all_goals (exfalso; simp_all; try linarith)

/-- The code's protein block agrees with the spec-side protein step. -/
theorem protein_step_eq (goal : GoalType) (item : ScanItem) (score : Int) :
    protein_step goal item score =
      spec_protein_step goal (item.nutrients.bind Nutrients.protein) score := by
  rcases item with ⟨nm, br, bc, iu, it, nutr, pl⟩
  cases nutr with
  | none => rfl
  | some n =>
    rcases n with ⟨c, p, cb, s, f, sf, fb, sd⟩
    cases p with
    | none => rfl
    | some protein =>
      simp only [protein_step, spec_protein_step, Option.bind]
      split_ifs <;> try rfl
      all_goals (exfalso; simp_all; try linarith)

/-- The code's calories block agrees with the spec-side calories step. -/
theorem calories_step_eq (goal : GoalType) (item : ScanItem) (score : Int) :
    calories_step goal item score =
      spec_calories_step goal (item.nutrients.bind Nutrients.calories) score := by
  rcases item with ⟨nm, br, bc, iu, it, nutr, pl⟩
  cases nutr with
  | none => rfl
  | some n =>
    rcases n with ⟨c, p, cb, s, f, sf, fb, sd⟩
    cases c with
    | none => rfl
    | some cal => rfl

/-- The code's colour derivation agrees with the spec-side thresholds. -/
theorem color_of_score_eq (score : Int) :
    color_of_score score = spec_color score := by
  unfold color_of_score spec_color
  split_ifs <;> try rfl
  all_goals (exfalso; omega)

/-- C1: for every goal and every ScanItem, `compute_verdict` follows the
reference algorithm of spec §4.1: base score 70 and medium risk, the
sugar/protein/calories steps with their thresholds, the clamp to [0,100],
the colour thresholds, and the insulin risk exactly as set by the sugar
step. -/
theorem compute_verdict_follows_spec (goal : GoalType) (item : ScanItem) :
    compute_verdict goal item = spec_verdict goal item := by
  simp only [compute_verdict, spec_verdict, pre_clamp_score, sugar_step_eq,
    protein_step_eq, calories_step_eq, color_of_score_eq]

/-- C2: `compute_verdict` is pure, total and deterministic (it is a Lean
function), and on any item whose nutrients are entirely absent — no
nutrients record, or a nutrients record with every field absent — it
returns score 70, colour yellow and medium insulin risk for every goal. -/
theorem compute_verdict_all_absent (goal : GoalType) (item : ScanItem)
    (h : item.nutrients = none ∨
         item.nutrients = some ⟨none, none, none, none, none, none, none, none⟩) :
    (compute_verdict goal item).score = 70 ∧
    (compute_verdict goal item).color = Color.yellow ∧
    (compute_verdict goal item).insulin_risk = Risk.medium := by
  rcases h with h | h <;>
    simp [compute_verdict, pre_clamp_score, sugar_step, protein_step,
      calories_step, color_of_score, h]

/-- Witness for C2 at goal `balanced` and the all-defaults item. -/
theorem compute_verdict_all_absent_witness :
    (compute_verdict GoalType.balanced {}).score = 70 ∧
    (compute_verdict GoalType.balanced {}).color = Color.yellow ∧
    (compute_verdict GoalType.balanced {}).insulin_risk = Risk.medium :=
  compute_verdict_all_absent GoalType.balanced {} (Or.inl rfl)

/-- C3: every verdict has its score in [0,100] and its colour is the
function of the score given by the fixed thresholds (green ≥ 75, yellow
for 55 ≤ score < 75, red below 55). -/
theorem compute_verdict_score_color (goal : GoalType) (item : ScanItem) :
    0 ≤ (compute_verdict goal item).score ∧
    (compute_verdict goal item).score ≤ 100 ∧
    (compute_verdict goal item).color =
      spec_color (compute_verdict goal item).score := by
  refine ⟨le_max_left _ _, max_le (by norm_num) (min_le_left _ _), ?_⟩
  exact color_of_score_eq _

/-- C10: the score accumulated before the clamp is already in [45, 90]
(the three goal-conditional branches are mutually exclusive, so at most
one adjustment applies to the base 70), hence the clamp never changes it
and the returned score equals the pre-clamp score. -/
theorem pre_clamp_score_bounds (goal : GoalType) (item : ScanItem) :
    45 ≤ pre_clamp_score goal item ∧ pre_clamp_score goal item ≤ 90 ∧
    (compute_verdict goal item).score = pre_clamp_score goal item := by
  have hb : 45 ≤ pre_clamp_score goal item ∧ pre_clamp_score goal item ≤ 90 := by
    rcases item with ⟨nm, br, bc, iu, it, nutr, pl⟩
    cases nutr with
    | none =>
      simp [pre_clamp_score, sugar_step, protein_step, calories_step]
    | some n =>
      rcases n with ⟨c, p, cb, s, f, sf, fb, sd⟩
      cases goal <;> cases s <;> cases p <;> cases c <;>
        simp [pre_clamp_score, sugar_step, protein_step, calories_step] <;>
        (try split_ifs) <;> omega
  refine ⟨hb.1, hb.2, ?_⟩
  have h1 := hb.1
  have h2 := hb.2
  show max 0 (min 100 (pre_clamp_score goal item)) = pre_clamp_score goal item
  rw [min_eq_right (by linarith), max_eq_right (by linarith)]

/-! ### Substring characterization for detect_allergens -/

/-- Lemma: `leadsWith` decides the prefix relation on char lists. -/
theorem leadsWith_iff (sub hay : List Char) :
    leadsWith sub hay = true ↔ sub <+: hay := by
  induction sub generalizing hay with
  | nil => simp [leadsWith]
  | cons a as ih =>
    cases hay with
    | nil => simp [leadsWith]
    | cons b bs => simp [leadsWith, List.cons_prefix_cons, ih, and_comm]

/-- Lemma: `hasSub` decides the substring (infix) relation on char lists. -/
theorem hasSub_iff (sub hay : List Char) :
    hasSub sub hay = true ↔ sub <:+: hay := by
  induction hay with
  | nil => simp [hasSub, leadsWith_iff, List.infix_nil, List.prefix_nil]
  | cons c rest ih =>
    simp [hasSub, leadsWith_iff, ih, List.infix_cons_iff]

/-- Lemma: `hasSub` is the decision procedure of the infix relation. -/
theorem hasSub_eq (sub hay : List Char) :
    hasSub sub hay = decide (sub <:+: hay) := by
  rw [Bool.eq_iff_iff]
  simp [hasSub_iff]

/-- C4: `detect_allergens` returns the empty list when the ingredients
text is absent or empty, and otherwise returns exactly the allergy terms
whose lowercased form is a substring of the lowercased text, in the order
of the allergy list (a `filter`). -/
theorem detect_allergens_spec (ingredients_text : Option String)
    (user_allergies : List String) :
    ((ingredients_text = none ∨ ingredients_text = some ("")) →
      detect_allergens ingredients_text user_allergies = []) ∧
    (∀ t, ingredients_text = some t → t ≠ "" →
      detect_allergens ingredients_text user_allergies =
        user_allergies.filter
          (fun a => decide ((lowerStr a).data <:+: (lowerStr t).data))) := by
  constructor
  · rintro (h | h) <;> simp [detect_allergens, h]
  · rintro t rfl ht
    simp [detect_allergens, ht, hasSub_eq]

/-- Witness for C4: the two concrete examples of the claim. -/
theorem detect_allergens_spec_witness :
    detect_allergens (some ("contains peanut oil")) ["Peanut"] = ["Peanut"] ∧
    detect_allergens none ["peanut"] = [] := by
  constructor
  · rw [(detect_allergens_spec (some ("contains peanut oil")) ["Peanut"]).2
      ("contains peanut oil") rfl (by decide)]
    decide
  · exact (detect_allergens_spec none ["peanut"]).1 (Or.inl rfl)

/-- C5: the barcode handler returns 500 with the exception message on any
non-HTTP failure of the fetch, returns 404 exactly when the decoded
payload's status differs from 1, on success maps the per-100g nutrient
keys into the item's individually-optional nutrient fields, and re-raises
an `HTTPException` unchanged (a 404 is never turned into a 500). -/
theorem barcode_lookup_spec (fetch_outcome : Except String OFFData) :
    (∀ msg, fetch_outcome = Except.error msg →
      barcode_lookup fetch_outcome = Except.error (500, msg)) ∧
    ((∃ e, barcode_lookup fetch_outcome = Except.error e ∧ e.1 = 404) ↔
      (∃ data, fetch_outcome = Except.ok data ∧ data.status ≠ some 1)) ∧
    (∀ data, fetch_outcome = Except.ok data → data.status = some 1 →
      barcode_lookup fetch_outcome =
        Except.ok (map_barcode_product (data.product.getD {})) ∧
      (map_barcode_product (data.product.getD {})).nutrients =
        some { calories := ((data.product.getD {}).nutriments.getD {}).energy_kcal_100g,
               protein := ((data.product.getD {}).nutriments.getD {}).proteins_100g,
               carbs := ((data.product.getD {}).nutriments.getD {}).carbohydrates_100g,
               sugar := ((data.product.getD {}).nutriments.getD {}).sugars_100g,
               fat := ((data.product.getD {}).nutriments.getD {}).fat_100g,
               sat_fat := ((data.product.getD {}).nutriments.getD {}).saturated_fat_100g,
               fiber := ((data.product.getD {}).nutriments.getD {}).fiber_100g,
               sodium := ((data.product.getD {}).nutriments.getD {}).sodium_100g }) ∧
    (∀ s d, barcode_try_body fetch_outcome = Except.error (PyExc.http s d) →
      barcode_lookup fetch_outcome = Except.error (s, d)) := by
  refine ⟨?_, ?_, ?_, ?_⟩
  · rintro msg rfl; rfl
  · cases fetch_outcome with
    | error msg => simp [barcode_lookup, barcode_try_body]
    | ok data =>
      by_cases hst : data.status = some 1 <;>
        simp [barcode_lookup, barcode_try_body, hst]
  · rintro data rfl hst
    exact ⟨by simp [barcode_lookup, barcode_try_body, hst], rfl⟩
  · intro s d h
    simp [barcode_lookup, h]

/-- Witness for C5: a status-0 payload yields a 404-class error, and a
fetch failure yields a 500 with the message. -/
theorem barcode_lookup_spec_witness :
    (∃ e, barcode_lookup (Except.ok { status := some 0 }) = Except.error e ∧
      e.1 = 404) ∧
    barcode_lookup (Except.error ("connection error")) =
      Except.error (500, "connection error") :=
  ⟨(barcode_lookup_spec (Except.ok { status := some 0 })).2.1.mpr
      ⟨_, rfl, by decide⟩,
   (barcode_lookup_spec (Except.error ("connection error"))).1 ("connection error") rfl⟩

/-- C6: `find_alternatives` never fails: any search failure yields the
empty list, a success yields at most 5 mapped `Alternative` records, and
the mapping defaults a missing product name to "Alternative". -/
theorem find_alternatives_spec (item : ScanItem) (goal : GoalType)
    (search_outcome : Except String SearchData) :
    (find_alternatives item goal search_outcome).length ≤ 5 ∧
    (∀ msg, search_outcome = Except.error msg →
      find_alternatives item goal search_outcome = []) ∧
    (∀ data, search_outcome = Except.ok data →
      find_alternatives item goal search_outcome =
        (data.products.take 5).map map_search_product) ∧
    (∀ p : SearchProduct, p.product_name = none →
      (map_search_product p).name = "Alternative") := by
  refine ⟨?_, ?_, ?_, ?_⟩
  · cases search_outcome with
    | error msg => simp [find_alternatives]
    | ok data =>
      simp only [find_alternatives, List.length_map, List.length_take]
      omega
  · rintro msg rfl; rfl
  · rintro data rfl; rfl
  · intro p hp
    simp [map_search_product, py_or_default, hp]

/-- Witness for C6: a timed-out search yields the empty list. -/
theorem find_alternatives_spec_witness :
    find_alternatives stub_item GoalType.balanced (Except.error ("timeout")) = [] :=
  (find_alternatives_spec stub_item GoalType.balanced
    (Except.error ("timeout"))).2.1 ("timeout") rfl

/-- Lemma: `detect_allergens` with an empty allergy list always returns the empty
list. -/
theorem detect_allergens_empty_list (t : Option String) :
    detect_allergens t [] = [] := by
  cases t <;> simp [detect_allergens]

/-- C7: the verdict handler calls the allergen detector with a literal
empty allergy list, so the response's allergens and the persisted record's
allergens_found are always empty, for every request. -/
theorem generate_verdict_no_allergies (req : VerdictRequest)
    (search_outcome : Except String SearchData)
    (store : List ScanRecord) (new_id : String) :
    (generate_verdict req search_outcome store new_id).2.allergens = [] ∧
    Option.map ScanRecord.allergens_found
        ((generate_verdict req search_outcome store new_id).1.getLast?) =
      some [] := by
  constructor
  · simp [generate_verdict, detect_allergens_empty_list]
  · simp [generate_verdict, List.getLast?_concat, detect_allergens_empty_list]

/-- C8: the profile handler is read-or-create by user_id: an existing
document is returned as-is with the store unchanged; otherwise the default
profile (goal balanced, empty allergies and sensitivities, language "en")
is persisted and returned; a second call with the same previously unknown
user_id returns that same document and leaves the store unchanged. -/
theorem get_or_create_profile_spec (store : List StoredProfile)
    (uid new_id new_id2 : String) :
    (∀ doc, store.find? (fun d => d.profile.user_id == uid) = some doc →
      get_or_create_profile store new_id uid = (store, doc)) ∧
    (store.find? (fun d => d.profile.user_id == uid) = none →
      get_or_create_profile store new_id uid =
        (store ++ [⟨new_id, { user_id := uid, name := none,
                              goal := GoalType.balanced, allergies := [],
                              sensitivities := [], language := "en" }⟩],
         ⟨new_id, { user_id := uid, name := none, goal := GoalType.balanced,
                    allergies := [], sensitivities := [],
                    language := "en" }⟩)) ∧
    (store.find? (fun d => d.profile.user_id == uid) = none →
      get_or_create_profile ((get_or_create_profile store new_id uid).1)
          new_id2 uid =
        ((get_or_create_profile store new_id uid).1,
         (get_or_create_profile store new_id uid).2)) := by
  refine ⟨?_, ?_, ?_⟩
  · intro doc h
    simp [get_or_create_profile, h]
  · intro h
    simp [get_or_create_profile, h]
  · intro h
    simp [get_or_create_profile, h, List.find?_append]

/-- Witness for C8: a fresh store, user "u": the first call creates the
default profile and the second call returns it unchanged. -/
theorem get_or_create_profile_spec_witness :
    (get_or_create_profile [] "id1" "u").2.profile.goal = GoalType.balanced ∧
    (get_or_create_profile [] "id1" "u").2.profile.allergies = [] ∧
    get_or_create_profile ((get_or_create_profile [] "id1" "u").1) "id2" "u" =
      ((get_or_create_profile [] "id1" "u").1,
       (get_or_create_profile [] "id1" "u").2) := by
  refine ⟨?_, ?_, (get_or_create_profile_spec [] "u" "id1" "id2").2.2 rfl⟩
  · rw [(get_or_create_profile_spec [] "u" "id1" "id2").2.1 rfl]
  · rw [(get_or_create_profile_spec [] "u" "id1" "id2").2.1 rfl]

/-- C9: the image-scan handler never reads the uploaded bytes: two calls
differing only in the file produce identical results, and the scanned item
is the hardcoded stub. -/
theorem scan_image_ignores_file (user_id : String) (goal : GoalType)
    (f1 f2 : List Nat) (search_outcome : Except String SearchData)
    (store : List ScanRecord) (new_id : String) :
    scan_image user_id goal f1 search_outcome store new_id =
      scan_image user_id goal f2 search_outcome store new_id ∧
    (scan_image user_id goal f1 search_outcome store new_id).2.item =
      stub_item ∧
    stub_item.name = some ("Detected Meal") ∧
    stub_item.ingredients_text = some ("rice, chicken, spices") ∧
    stub_item.nutrients = some { calories := some 250, protein := some 18,
                                 carbs := some 30, sugar := some 2 } :=
  ⟨rfl, rfl, rfl, rfl, rfl⟩

end SmartScan
